import Mathlib

set_option maxRecDepth 4000

/-!
# Verification of the shadowsocks outbound client dispatch core

Shallow embedding of `src/proxy/shadowsocks/client.go` (`Client.Dispatch` and
`ClientFactory.StreamCapability`).  Pure data is translated directly; the
side-effecting parts of `Dispatch` (dialing, writes, goroutine spawn, deferred
releases, mutex hand-off) are embedded as a pure function producing an event
trace, the spawned background task's own event list, the resulting error value,
and the request header/account observations at their points of use.

Collaborator code of this repository that is not under `src/`
(`retry.Timed(5, 100).On`, `protocol.NewRoundRobinServerPicker`,
`ServerSpec.PickUser`, the `RequestOptionOneTimeAuth` flag constant) is
modelled from the spec, as noted on each definition.
-/

namespace Shadowsocks

/-- Network kinds of the `v2net.Network` model used by the client:
stream (TCP), datagram (UDP) and raw-stream (RawTCP). -/
inductive Network
  | tcp
  | udp
  | rawtcp
deriving DecidableEq, Repr

/-- `v2net.Destination`: address, port and network kind. -/
structure Destination where
  address : String
  port : Nat
  network : Network
deriving DecidableEq, Repr

/-- `protocol.RequestCommand`: `RequestCommandTCP` (stream) or
`RequestCommandUDP` (datagram). -/
inductive RequestCommand
  | tcp
  | udp
deriving DecidableEq, Repr

/-- The account's one-time-auth mode (`Account_Auto`, `Account_Disabled`,
`Account_Enabled`). -/
inductive OneTimeAuth
  | auto
  | disabled
  | enabled
deriving DecidableEq, Repr

/-- The typed `*ShadowsocksAccount`; `Dispatch` reads only its
`OneTimeAuth` field. -/
structure ShadowsocksAccount where
  oneTimeAuth : OneTimeAuth
deriving DecidableEq, Repr

/-- The dynamic type of the value returned by `GetTypedAccount`:
either a `*ShadowsocksAccount` or a value of some other account type
(the runtime assertion `rawAccount.(*ShadowsocksAccount)` panics on the
latter). -/
inductive TypedAccount
  | shadowsocks (account : ShadowsocksAccount)
  | other
deriving DecidableEq, Repr

/-- Outcome of `user.GetTypedAccount()`. -/
inductive AccountResult
  | ok (account : TypedAccount)
  | err (msg : String)
deriving DecidableEq, Repr

/-- `protocol.User` as `Dispatch` sees it: only its `GetTypedAccount`
outcome matters. -/
structure User where
  account : AccountResult
deriving DecidableEq, Repr

/-- `protocol.ServerSpec`: a relay destination with its accounts. -/
structure ServerSpec where
  destination : Destination
  users : List User
deriving DecidableEq, Repr

def defaultUser : User := { account := AccountResult.err "no user" }

def defaultServer : ServerSpec :=
  { destination := { address := "", port := 0, network := Network.tcp }, users := [] }

/-- Modelled from the spec: `ServerSpec.PickUser` (not under `src/`) selects
one account bound to the server; the spec allows any deterministic policy, we
take the first. -/
def ServerSpec.pickUser (s : ServerSpec) : User := s.users.getD 0 defaultUser

/-- `protocol.RequestHeader` with the fields `Dispatch` writes. -/
structure RequestHeader where
  version : Nat
  command : RequestCommand
  address : String
  port : Nat
  user : Option User
  option : Nat
deriving DecidableEq, Repr

/-- The shadowsocks protocol `Version` constant (defined outside `src/`). -/
def Version : Nat := 1

/-- Modelled from the spec: the `RequestOptionOneTimeAuth` flag bit
(`protocol` package, not under `src/`); a single option bit. -/
def RequestOptionOneTimeAuth : Nat := 1

/-- The `Client`: its round-robin server picker is represented by the server
list plus the picker's rotation index (modelled from the spec, §4.1: cyclic
order with wraparound). -/
structure Client where
  servers : List ServerSpec
  pickerIndex : Nat
deriving Repr

/-- Observable events of one `Dispatch` invocation, in program order. -/
inductive Event
  | dialAttempt (attempt : Nat) (dest : Destination)
  | sleepMs (ms : Nat)
  | setReusable (reusable : Bool)
  | buildHeaderBase (header : RequestHeader)
  | getTypedAccount
  | setHeaderUser
  | writeTCPRequestHeader (header : RequestHeader)
  | writeTCPPayload
  | setCached (cached : Bool)
  | pipeInputToBody
  | signalAcquire
  | spawnResponseTask
  | signalAwait
  | writeUDPPayload (header : RequestHeader)
  | pipeInputToUDPWriter
  | bodyWriterRelease (present : Bool)
  | bufferedWriterRelease
  | outputClose
  | inputRelease
  | payloadRelease
deriving DecidableEq, Repr

/-- Events of the spawned response-reading task (the `go func` body);
`signalDone` is the deferred `responseMutex.Unlock()`. -/
inductive BgEvent
  | readTCPResponseOk
  | readTCPResponseFailed
  | logWarning
  | pipeToOutput
  | signalDone
deriving DecidableEq, Repr

/-- Environment: the outcomes of the external collaborator calls made by one
`Dispatch` invocation.  `dial` is indexed by the attempt number. -/
structure Env where
  dial : Nat → Destination → Except String Nat
  writeTCPRequest : Except String Unit
  writeTCPPayload : Except String Unit
  readTCPResponse : Except String Unit
  writeUDPPayload : Except String Unit

/-- The value `Dispatch` produces: `ok` is a `nil` error return, `err` a
non-nil error, `panicked` a runtime panic (the deferred releases still run
during a Go panic, so the trace still carries them). -/
inductive DResult
  | ok
  | err (msg : String)
  | panicked (msg : String)
deriving DecidableEq, Repr

/-- Full observation of one `Dispatch` invocation. -/
structure DispatchOut where
  trace : List Event
  bg : Option (List BgEvent)
  result : DResult
  header : Option RequestHeader
  accountUsed : Option ShadowsocksAccount
deriving DecidableEq, Repr

/-- Modelled from the spec: the round-robin pick at rotation index `i`
(cyclic over the pool with wraparound). -/
def pickAt (servers : List ServerSpec) (i : Nat) : ServerSpec :=
  servers.getD (i % servers.length) defaultServer

/-- The destination dialed at rotation index `i`: the picked server's
destination with its network overridden by the inbound request's network
(`dest := server.Destination(); dest.Network = network`). -/
def attemptDest (servers : List ServerSpec) (network : Network) (i : Nat) : Destination :=
  { (pickAt servers i).destination with network := network }

/-- The dialing loop `retry.Timed(5, 100).On(...)` with the closure of
`Dispatch` lines 47-58.  The retry strategy itself is not under `src/` and is
modelled from the spec: up to `r` attempts spaced 100 ms apart, stopping at the
first success, and reporting the final underlying error when all fail.  Each
attempt re-picks a server (advancing the rotation index) and dials the picked
destination with the network overridden. -/
def dialAttempts (dial : Nat → Destination → Except String Nat)
    (servers : List ServerSpec) (network : Network) :
    Nat → Nat → Nat → List Event × Except String (Nat × ServerSpec)
  | _, _, 0 => ([], Except.error "no attempts")
  | idx, attempt, 1 =>
    let dest := attemptDest servers network idx
    match dial attempt dest with
    | Except.ok conn => ([Event.dialAttempt attempt dest], Except.ok (conn, pickAt servers idx))
    | Except.error e => ([Event.dialAttempt attempt dest], Except.error e)
  | idx, attempt, r + 2 =>
    let dest := attemptDest servers network idx
    match dial attempt dest with
    | Except.ok conn => ([Event.dialAttempt attempt dest], Except.ok (conn, pickAt servers idx))
    | Except.error _ =>
      let rest := dialAttempts dial servers network (idx + 1) (attempt + 1) (r + 1)
      (Event.dialAttempt attempt dest :: Event.sleepMs 100 :: rest.1, rest.2)

/-- The `RequestHeader` struct literal of `Dispatch` lines 66-75: version,
address, port, and command = `RequestCommandTCP` exactly when
`destination.Network == v2net.Network_TCP`, else `RequestCommandUDP`. -/
def buildRequestBase (d : Destination) : RequestHeader :=
  { version := Version
    command := if d.network = Network.tcp then RequestCommand.tcp else RequestCommand.udp
    address := d.address
    port := d.port
    user := none
    option := 0 }

/-- Completing the header (lines 84-88): `request.User = user`, then
`request.Option |= RequestOptionOneTimeAuth` when the account's one-time-auth
mode is `Auto` or `Enabled`. -/
def finishRequest (d : Destination) (u : User) (a : ShadowsocksAccount) : RequestHeader :=
  let r := { buildRequestBase d with user := some u }
  if a.oneTimeAuth = OneTimeAuth.auto ∨ a.oneTimeAuth = OneTimeAuth.enabled then
    { r with option := r.option ||| RequestOptionOneTimeAuth }
  else r

/-- Body of the stream-mode response goroutine: `ReadTCPResponse` then
`v2io.Pipe` on success, a logged warning and an early return on failure; the
deferred `responseMutex.Unlock()` (`signalDone`) runs last either way. -/
def bgTCP (env : Env) : List BgEvent :=
  match env.readTCPResponse with
  | Except.error _ => [BgEvent.readTCPResponseFailed, BgEvent.logWarning, BgEvent.signalDone]
  | Except.ok _ => [BgEvent.readTCPResponseOk, BgEvent.pipeToOutput, BgEvent.signalDone]

/-- Body of the datagram-mode response goroutine: pipe the UDP reader into the
Output, then the deferred `responseMutex.Unlock()`. -/
def bgUDP : List BgEvent := [BgEvent.pipeToOutput, BgEvent.signalDone]

/-- The three releases deferred at the top of `Dispatch` (lines 38-40), in
their LIFO execution order: `ray.OutboundOutput().Close()`,
`ray.OutboundInput().Release()`, `payload.Release()`. -/
def deferBase : List Event := [Event.outputClose, Event.inputRelease, Event.payloadRelease]

/-- Everything `Dispatch` does after the dialing loop, given the loop's
result; its `trace` is the part of the dispatch trace after the dial events. -/
def dispatchAfterDial (env : Env) (d : Destination)
    (res : Except String (Nat × ServerSpec)) : DispatchOut :=
  match res with
  | Except.error e =>
      { trace := deferBase
        bg := none
        result := DResult.err ("Shadowsocks|Client: Failed to find an available destination:" ++ e)
        header := none
        accountUsed := none }
  | Except.ok (_conn, server) =>
      let request0 := buildRequestBase d
      let user := server.pickUser
      let pre : List Event :=
        [Event.setReusable false, Event.buildHeaderBase request0, Event.getTypedAccount]
      match user.account with
      | AccountResult.err e =>
          { trace := pre ++ deferBase
            bg := none
            result := DResult.err ("Shadowsocks|Client: Failed to get a valid user account: " ++ e)
            header := none
            accountUsed := none }
      | AccountResult.ok TypedAccount.other =>
          { trace := pre ++ deferBase
            bg := none
            result := DResult.panicked "interface conversion to *ShadowsocksAccount failed"
            header := none
            accountUsed := none }
      | AccountResult.ok (TypedAccount.shadowsocks account) =>
          let request := finishRequest d user account
          let tr3 := pre ++ [Event.setHeaderUser]
          if request.command = RequestCommand.tcp then
            match env.writeTCPRequest with
            | Except.error e =>
                { trace := tr3 ++ [Event.writeTCPRequestHeader request,
                    Event.bodyWriterRelease false, Event.bufferedWriterRelease] ++ deferBase
                  bg := none
                  result := DResult.err ("Shadowsock|Client: Failed to write request: " ++ e)
                  header := some request
                  accountUsed := some account }
            | Except.ok _ =>
                match env.writeTCPPayload with
                | Except.error e =>
                    { trace := tr3 ++ [Event.writeTCPRequestHeader request, Event.writeTCPPayload,
                        Event.bodyWriterRelease true, Event.bufferedWriterRelease] ++ deferBase
                      bg := none
                      result := DResult.err ("Shadowsocks|Client: Failed to write payload: " ++ e)
                      header := some request
                      accountUsed := some account }
                | Except.ok _ =>
                    { trace := tr3 ++ [Event.writeTCPRequestHeader request, Event.writeTCPPayload,
                        Event.signalAcquire, Event.spawnResponseTask, Event.setCached false,
                        Event.pipeInputToBody, Event.signalAwait,
                        Event.bodyWriterRelease true, Event.bufferedWriterRelease] ++ deferBase
                      bg := some (bgTCP env)
                      result := DResult.ok
                      header := some request
                      accountUsed := some account }
          else
            match env.writeUDPPayload with
            | Except.error e =>
                { trace := tr3 ++ [Event.signalAcquire, Event.spawnResponseTask,
                    Event.writeUDPPayload request] ++ deferBase
                  bg := some bgUDP
                  result := DResult.err ("Shadowsocks|Client: Failed to write payload: " ++ e)
                  header := some request
                  accountUsed := some account }
            | Except.ok _ =>
                { trace := tr3 ++ [Event.signalAcquire, Event.spawnResponseTask,
                    Event.writeUDPPayload request, Event.pipeInputToUDPWriter,
                    Event.signalAwait] ++ deferBase
                  bg := some bgUDP
                  result := DResult.ok
                  header := some request
                  accountUsed := some account }

/-- `Client.Dispatch`: run the dialing loop, then the rest; the full trace is
the dial-loop trace followed by the post-dial trace. -/
def dispatch (c : Client) (env : Env) (d : Destination) : DispatchOut :=
  let dialOut := dialAttempts env.dial c.servers d.network c.pickerIndex 0 5
  let out := dispatchAfterDial env d dialOut.2
  { out with trace := dialOut.1 ++ out.trace }

/-! ### Concrete fixtures used by witnesses and counterexamples -/

def relayDest : Destination := { address := "relay.example", port := 8388, network := Network.tcp }

def serverOf (u : User) : ServerSpec := { destination := relayDest, users := [u] }

def clientOf (u : User) : Client := { servers := [serverOf u], pickerIndex := 0 }

def userEnabled : User :=
  { account := AccountResult.ok (TypedAccount.shadowsocks { oneTimeAuth := OneTimeAuth.enabled }) }

def userDisabled : User :=
  { account := AccountResult.ok (TypedAccount.shadowsocks { oneTimeAuth := OneTimeAuth.disabled }) }

def userBadAccount : User := { account := AccountResult.err "bad account" }

def userForeign : User := { account := AccountResult.ok TypedAccount.other }

def envAllOk : Env :=
  { dial := fun _ _ => Except.ok 1
    writeTCPRequest := Except.ok ()
    writeTCPPayload := Except.ok ()
    readTCPResponse := Except.ok ()
    writeUDPPayload := Except.ok () }

def envDialRefused : Env := { envAllOk with dial := fun _ _ => Except.error "refused" }

def envRequestFails : Env := { envAllOk with writeTCPRequest := Except.error "closed" }

def envUDPWriteFails : Env := { envAllOk with writeUDPPayload := Except.error "closed" }

def envReadFails : Env := { envAllOk with readTCPResponse := Except.error "invalid response" }

def destStream : Destination := { address := "example.com", port := 443, network := Network.tcp }

def destRawStream : Destination := { address := "example.com", port := 443, network := Network.rawtcp }

def destDatagram : Destination := { address := "example.com", port := 53, network := Network.udp }

def accountEnabled : ShadowsocksAccount := { oneTimeAuth := OneTimeAuth.enabled }

def accountDisabled : ShadowsocksAccount := { oneTimeAuth := OneTimeAuth.disabled }

def headerEnabledStream : RequestHeader := finishRequest destStream userEnabled accountEnabled

def headerDisabledRaw : RequestHeader := finishRequest destRawStream userDisabled accountDisabled

/-! ### Supporting lemmas -/

theorem intersperse_cons_of_ne_nil {α : Type} (sep x : α) (l : List α) (h : l ≠ []) :
    List.intersperse sep (x :: l) = x :: sep :: List.intersperse sep l := by
  cases l with
  | nil => exact absurd rfl h
  | cons y ys => rfl

/-- Every event emitted by the dialing loop is a dial attempt or a 100 ms
sleep. -/
theorem dialAttempts_events (dial : Nat → Destination → Except String Nat)
    (servers : List ServerSpec) (network : Network) :
    ∀ (r idx a : Nat) (ev : Event),
      ev ∈ (dialAttempts dial servers network idx a r).1 →
      (∃ k dest, ev = Event.dialAttempt k dest) ∨ ev = Event.sleepMs 100 := by
  intro r
  induction r with
  | zero =>
    intro idx a ev h
    simp [dialAttempts] at h
  | succ r ih =>
    intro idx a ev h
    cases r with
    | zero =>
      simp only [dialAttempts] at h
      split at h <;> simp at h <;> exact Or.inl ⟨a, _, h⟩
    | succ r' =>
      simp only [dialAttempts] at h
      split at h
      · simp at h
        exact Or.inl ⟨a, _, h⟩
      · simp only [List.mem_cons] at h
        rcases h with h | h | h
        · exact Or.inl ⟨a, _, h⟩
        · exact Or.inr h
        · exact ih _ _ ev h

/-- Characterization of the dialing loop: it makes `m` attempts (`0 < m ≤ r`),
interspersed with 100 ms sleeps; attempt `k` dials the round-robin pick at
rotation index `idx + k` with the network overridden; all attempts before the
last one failed; and the loop either ends at the first success with that
connection and server, or exhausts all `r` attempts and reports the final
underlying error. -/
theorem dialAttempts_char (dial : Nat → Destination → Except String Nat)
    (servers : List ServerSpec) (network : Network) :
    ∀ (r idx a : Nat), 0 < r →
    ∃ m, 0 < m ∧ m ≤ r ∧
      (dialAttempts dial servers network idx a r).1 =
        List.intersperse (Event.sleepMs 100)
          ((List.range m).map fun k =>
            Event.dialAttempt (a + k) (attemptDest servers network (idx + k))) ∧
      (∀ k, k + 1 < m →
        ∃ e, dial (a + k) (attemptDest servers network (idx + k)) = Except.error e) ∧
      ((∃ conn, dial (a + (m - 1)) (attemptDest servers network (idx + (m - 1))) = Except.ok conn ∧
          (dialAttempts dial servers network idx a r).2 =
            Except.ok (conn, pickAt servers (idx + (m - 1)))) ∨
       (m = r ∧ ∃ e,
          dial (a + (m - 1)) (attemptDest servers network (idx + (m - 1))) = Except.error e ∧
          (dialAttempts dial servers network idx a r).2 = Except.error e)) := by
  intro r
  induction r with
  | zero =>
    intro idx a h
    omega
  | succ r ih =>
    intro idx a _
    cases r with
    | zero =>
      cases hd : dial a (attemptDest servers network idx) with
      | ok conn =>
        refine ⟨1, Nat.one_pos, le_refl 1, ?_, ?_, ?_⟩
        · simp [dialAttempts, hd, List.range_succ, List.range_zero, List.intersperse]
        · intro k hk
          omega
        · left
          exact ⟨conn, by simpa using hd, by simp [dialAttempts, hd]⟩
      | error e =>
        refine ⟨1, Nat.one_pos, le_refl 1, ?_, ?_, ?_⟩
        · simp [dialAttempts, hd, List.range_succ, List.range_zero, List.intersperse]
        · intro k hk
          omega
        · right
          exact ⟨rfl, e, by simpa using hd, by simp [dialAttempts, hd]⟩
    | succ r' =>
      cases hd : dial a (attemptDest servers network idx) with
      | ok conn =>
        refine ⟨1, Nat.one_pos, by omega, ?_, ?_, ?_⟩
        · simp [dialAttempts, hd, List.range_succ, List.range_zero, List.intersperse]
        · intro k hk
          omega
        · left
          exact ⟨conn, by simpa using hd, by simp [dialAttempts, hd]⟩
      | error e =>
        obtain ⟨m, hm0, hmr, htr, hfail, hres⟩ := ih (idx + 1) (a + 1) (Nat.succ_pos r')
        have hstep1 : (dialAttempts dial servers network idx a (r' + 1 + 1)).1 =
            Event.dialAttempt a (attemptDest servers network idx) :: Event.sleepMs 100 ::
              (dialAttempts dial servers network (idx + 1) (a + 1) (r' + 1)).1 := by
          simp [dialAttempts, hd]
        have hstep2 : (dialAttempts dial servers network idx a (r' + 1 + 1)).2 =
            (dialAttempts dial servers network (idx + 1) (a + 1) (r' + 1)).2 := by
          simp [dialAttempts, hd]
        refine ⟨m + 1, Nat.succ_pos m, by omega, ?_, ?_, ?_⟩
        · have hfun : ((fun k =>
              Event.dialAttempt (a + k) (attemptDest servers network (idx + k))) ∘ Nat.succ) =
              fun k => Event.dialAttempt (a + 1 + k) (attemptDest servers network (idx + 1 + k)) := by
            funext k
            have h1 : a + (k + 1) = a + 1 + k := by omega
            have h2 : idx + (k + 1) = idx + 1 + k := by omega
            simp only [Function.comp, Nat.succ_eq_add_one, h1, h2]
          have hne : ((List.range m).map fun k =>
              Event.dialAttempt (a + 1 + k) (attemptDest servers network (idx + 1 + k))) ≠ [] := by
            simp only [ne_eq, List.map_eq_nil_iff, List.range_eq_nil]
            omega
          rw [hstep1, htr, List.range_succ_eq_map, List.map_cons, List.map_map, hfun,
            intersperse_cons_of_ne_nil _ _ _ hne]
          simp
        · intro k hk
          cases k with
          | zero => exact ⟨e, by simpa using hd⟩
          | succ k' =>
            obtain ⟨e', he'⟩ := hfail k' (by omega)
            refine ⟨e', ?_⟩
            have h1 : a + (k' + 1) = a + 1 + k' := by omega
            have h2 : idx + (k' + 1) = idx + 1 + k' := by omega
            rw [h1, h2]
            exact he'
        · have h1 : a + (m + 1 - 1) = a + 1 + (m - 1) := by omega
          have h2 : idx + (m + 1 - 1) = idx + 1 + (m - 1) := by omega
          rcases hres with ⟨conn, hc1, hc2⟩ | ⟨hmr', e', he1, he2⟩
          · left
            refine ⟨conn, ?_, ?_⟩
            · rw [h1, h2]
              exact hc1
            · rw [hstep2, h2]
              exact hc2
          · right
            refine ⟨by omega, e', ?_, ?_⟩
            · rw [h1, h2]
              exact he1
            · rw [hstep2]
              exact he2

theorem finishRequest_command (d : Destination) (u : User) (a : ShadowsocksAccount) :
    (finishRequest d u a).command =
      (if d.network = Network.tcp then RequestCommand.tcp else RequestCommand.udp) := by
  simp only [finishRequest, buildRequestBase]
  split <;> rfl

theorem finishRequest_option (d : Destination) (u : User) (a : ShadowsocksAccount) :
    (finishRequest d u a).option =
      (if a.oneTimeAuth = OneTimeAuth.auto ∨ a.oneTimeAuth = OneTimeAuth.enabled
       then RequestOptionOneTimeAuth else 0) := by
  simp only [finishRequest, buildRequestBase]
  split <;> simp [RequestOptionOneTimeAuth]

theorem dispatch_trace_eq (c : Client) (env : Env) (d : Destination) :
    (dispatch c env d).trace =
      (dialAttempts env.dial c.servers d.network c.pickerIndex 0 5).1 ++
        (dispatchAfterDial env d
          (dialAttempts env.dial c.servers d.network c.pickerIndex 0 5).2).trace := rfl

theorem dispatch_result_eq (c : Client) (env : Env) (d : Destination) :
    (dispatch c env d).result =
      (dispatchAfterDial env d
        (dialAttempts env.dial c.servers d.network c.pickerIndex 0 5).2).result := rfl

theorem dispatch_bg_eq (c : Client) (env : Env) (d : Destination) :
    (dispatch c env d).bg =
      (dispatchAfterDial env d
        (dialAttempts env.dial c.servers d.network c.pickerIndex 0 5).2).bg := rfl

theorem dispatch_header_eq (c : Client) (env : Env) (d : Destination) :
    (dispatch c env d).header =
      (dispatchAfterDial env d
        (dialAttempts env.dial c.servers d.network c.pickerIndex 0 5).2).header := rfl

theorem dispatch_accountUsed_eq (c : Client) (env : Env) (d : Destination) :
    (dispatch c env d).accountUsed =
      (dispatchAfterDial env d
        (dialAttempts env.dial c.servers d.network c.pickerIndex 0 5).2).accountUsed := rfl

/-- No cleanup event is emitted by the dialing loop. -/
theorem not_mem_dial_trace (dial : Nat → Destination → Except String Nat)
    (servers : List ServerSpec) (network : Network) (r idx a : Nat) (ev : Event)
    (h1 : ∀ k dest, ev ≠ Event.dialAttempt k dest) (h2 : ev ≠ Event.sleepMs 100) :
    ev ∉ (dialAttempts dial servers network idx a r).1 := by
  intro hmem
  rcases dialAttempts_events dial servers network r idx a ev hmem with ⟨k, dest, hk⟩ | hk
  · exact h1 k dest hk
  · exact h2 hk

/-! ### Branch computations of `dispatchAfterDial` -/

theorem dispatchAfterDial_dial_error (env : Env) (d : Destination) (e : String) :
    dispatchAfterDial env d (Except.error e) =
      { trace := deferBase
        bg := none
        result := DResult.err ("Shadowsocks|Client: Failed to find an available destination:" ++ e)
        header := none
        accountUsed := none } := rfl

theorem dispatchAfterDial_account_error (env : Env) (d : Destination) (conn : Nat)
    (server : ServerSpec) (e : String)
    (hacc : server.pickUser.account = AccountResult.err e) :
    dispatchAfterDial env d (Except.ok (conn, server)) =
      { trace := [Event.setReusable false, Event.buildHeaderBase (buildRequestBase d),
          Event.getTypedAccount] ++ deferBase
        bg := none
        result := DResult.err ("Shadowsocks|Client: Failed to get a valid user account: " ++ e)
        header := none
        accountUsed := none } := by
  simp only [dispatchAfterDial, hacc]

theorem dispatchAfterDial_foreign (env : Env) (d : Destination) (conn : Nat)
    (server : ServerSpec)
    (hacc : server.pickUser.account = AccountResult.ok TypedAccount.other) :
    dispatchAfterDial env d (Except.ok (conn, server)) =
      { trace := [Event.setReusable false, Event.buildHeaderBase (buildRequestBase d),
          Event.getTypedAccount] ++ deferBase
        bg := none
        result := DResult.panicked "interface conversion to *ShadowsocksAccount failed"
        header := none
        accountUsed := none } := by
  simp only [dispatchAfterDial, hacc]

theorem dispatchAfterDial_tcp_reqfail (env : Env) (d : Destination) (conn : Nat)
    (server : ServerSpec) (account : ShadowsocksAccount) (e : String)
    (hacc : server.pickUser.account = AccountResult.ok (TypedAccount.shadowsocks account))
    (hnet : d.network = Network.tcp)
    (hreq : env.writeTCPRequest = Except.error e) :
    dispatchAfterDial env d (Except.ok (conn, server)) =
      { trace := [Event.setReusable false, Event.buildHeaderBase (buildRequestBase d),
          Event.getTypedAccount, Event.setHeaderUser,
          Event.writeTCPRequestHeader (finishRequest d server.pickUser account),
          Event.bodyWriterRelease false, Event.bufferedWriterRelease] ++ deferBase
        bg := none
        result := DResult.err ("Shadowsock|Client: Failed to write request: " ++ e)
        header := some (finishRequest d server.pickUser account)
        accountUsed := some account } := by
  simp [dispatchAfterDial, hacc, hreq, finishRequest_command, hnet]

theorem dispatchAfterDial_tcp_payfail (env : Env) (d : Destination) (conn : Nat)
    (server : ServerSpec) (account : ShadowsocksAccount) (e : String)
    (hacc : server.pickUser.account = AccountResult.ok (TypedAccount.shadowsocks account))
    (hnet : d.network = Network.tcp)
    (hreq : env.writeTCPRequest = Except.ok ())
    (hpay : env.writeTCPPayload = Except.error e) :
    dispatchAfterDial env d (Except.ok (conn, server)) =
      { trace := [Event.setReusable false, Event.buildHeaderBase (buildRequestBase d),
          Event.getTypedAccount, Event.setHeaderUser,
          Event.writeTCPRequestHeader (finishRequest d server.pickUser account),
          Event.writeTCPPayload, Event.bodyWriterRelease true,
          Event.bufferedWriterRelease] ++ deferBase
        bg := none
        result := DResult.err ("Shadowsocks|Client: Failed to write payload: " ++ e)
        header := some (finishRequest d server.pickUser account)
        accountUsed := some account } := by
  simp [dispatchAfterDial, hacc, hreq, hpay, finishRequest_command, hnet]

theorem dispatchAfterDial_tcp_success (env : Env) (d : Destination) (conn : Nat)
    (server : ServerSpec) (account : ShadowsocksAccount)
    (hacc : server.pickUser.account = AccountResult.ok (TypedAccount.shadowsocks account))
    (hnet : d.network = Network.tcp)
    (hreq : env.writeTCPRequest = Except.ok ())
    (hpay : env.writeTCPPayload = Except.ok ()) :
    dispatchAfterDial env d (Except.ok (conn, server)) =
      { trace := [Event.setReusable false, Event.buildHeaderBase (buildRequestBase d),
          Event.getTypedAccount, Event.setHeaderUser,
          Event.writeTCPRequestHeader (finishRequest d server.pickUser account),
          Event.writeTCPPayload, Event.signalAcquire, Event.spawnResponseTask,
          Event.setCached false, Event.pipeInputToBody, Event.signalAwait,
          Event.bodyWriterRelease true, Event.bufferedWriterRelease] ++ deferBase
        bg := some (bgTCP env)
        result := DResult.ok
        header := some (finishRequest d server.pickUser account)
        accountUsed := some account } := by
  simp [dispatchAfterDial, hacc, hreq, hpay, finishRequest_command, hnet]

theorem dispatchAfterDial_udp_fail (env : Env) (d : Destination) (conn : Nat)
    (server : ServerSpec) (account : ShadowsocksAccount) (e : String)
    (hacc : server.pickUser.account = AccountResult.ok (TypedAccount.shadowsocks account))
    (hnet : d.network ≠ Network.tcp)
    (hw : env.writeUDPPayload = Except.error e) :
    dispatchAfterDial env d (Except.ok (conn, server)) =
      { trace := [Event.setReusable false, Event.buildHeaderBase (buildRequestBase d),
          Event.getTypedAccount, Event.setHeaderUser, Event.signalAcquire,
          Event.spawnResponseTask,
          Event.writeUDPPayload (finishRequest d server.pickUser account)] ++ deferBase
        bg := some bgUDP
        result := DResult.err ("Shadowsocks|Client: Failed to write payload: " ++ e)
        header := some (finishRequest d server.pickUser account)
        accountUsed := some account } := by
  simp [dispatchAfterDial, hacc, hw, finishRequest_command, hnet]

theorem dispatchAfterDial_udp_success (env : Env) (d : Destination) (conn : Nat)
    (server : ServerSpec) (account : ShadowsocksAccount)
    (hacc : server.pickUser.account = AccountResult.ok (TypedAccount.shadowsocks account))
    (hnet : d.network ≠ Network.tcp)
    (hw : env.writeUDPPayload = Except.ok ()) :
    dispatchAfterDial env d (Except.ok (conn, server)) =
      { trace := [Event.setReusable false, Event.buildHeaderBase (buildRequestBase d),
          Event.getTypedAccount, Event.setHeaderUser, Event.signalAcquire,
          Event.spawnResponseTask,
          Event.writeUDPPayload (finishRequest d server.pickUser account),
          Event.pipeInputToUDPWriter, Event.signalAwait] ++ deferBase
        bg := some bgUDP
        result := DResult.ok
        header := some (finishRequest d server.pickUser account)
        accountUsed := some account } := by
  simp [dispatchAfterDial, hacc, hw, finishRequest_command, hnet]

/-- Whenever a dispatch produces a completed request header, that header is
`finishRequest` of the destination, the picked user and the resolved
shadowsocks account, and the latter is the dispatch's used account. -/
theorem dispatch_header_account (c : Client) (env : Env) (d : Destination) (h : RequestHeader)
    (hh : (dispatch c env d).header = some h) :
    ∃ u a, (dispatch c env d).accountUsed = some a ∧ h = finishRequest d u a := by
  rw [dispatch_header_eq] at hh
  rw [dispatch_accountUsed_eq]
  cases hres : (dialAttempts env.dial c.servers d.network c.pickerIndex 0 5).2 with
  | error e =>
    rw [hres, dispatchAfterDial_dial_error] at hh
    simp at hh
  | ok p =>
    obtain ⟨conn, server⟩ := p
    rw [hres] at hh
    cases hacc : server.pickUser.account with
    | err e =>
      rw [dispatchAfterDial_account_error env d conn server e hacc] at hh
      simp at hh
    | ok ta =>
      cases ta with
      | other =>
        rw [dispatchAfterDial_foreign env d conn server hacc] at hh
        simp at hh
      | shadowsocks account =>
        by_cases hnet : d.network = Network.tcp
        · cases hreq : env.writeTCPRequest with
          | error e =>
            rw [dispatchAfterDial_tcp_reqfail env d conn server account e hacc hnet hreq] at hh ⊢
            replace hh : some (finishRequest d server.pickUser account) = some h := hh
            injection hh with hh
            exact ⟨server.pickUser, account, rfl, hh.symm⟩
          | ok u =>
            cases u
            cases hpay : env.writeTCPPayload with
            | error e =>
              rw [dispatchAfterDial_tcp_payfail env d conn server account e hacc hnet hreq hpay] at hh ⊢
              replace hh : some (finishRequest d server.pickUser account) = some h := hh
              injection hh with hh
              exact ⟨server.pickUser, account, rfl, hh.symm⟩
            | ok u2 =>
              cases u2
              rw [dispatchAfterDial_tcp_success env d conn server account hacc hnet hreq hpay] at hh ⊢
              replace hh : some (finishRequest d server.pickUser account) = some h := hh
              injection hh with hh
              exact ⟨server.pickUser, account, rfl, hh.symm⟩
        · cases hw : env.writeUDPPayload with
          | error e =>
            rw [dispatchAfterDial_udp_fail env d conn server account e hacc hnet hw] at hh ⊢
            replace hh : some (finishRequest d server.pickUser account) = some h := hh
            injection hh with hh
            exact ⟨server.pickUser, account, rfl, hh.symm⟩
          | ok u =>
            cases u
            rw [dispatchAfterDial_udp_success env d conn server account hacc hnet hw] at hh ⊢
            replace hh : some (finishRequest d server.pickUser account) = some h := hh
            injection hh with hh
            exact ⟨server.pickUser, account, rfl, hh.symm⟩

/-- C1 (amended): for every dispatch that builds a request header, the
header's command is `stream` (RequestCommandTCP) exactly when the requested
destination's network is TCP; for every other network kind, including the
stream-like RawTCP, the command is `datagram` (RequestCommandUDP). -/
theorem dispatch_command_tcp_only (c : Client) (env : Env) (d : Destination)
    (h : RequestHeader) (hh : (dispatch c env d).header = some h) :
    h.command = (if d.network = Network.tcp then RequestCommand.tcp else RequestCommand.udp) := by
  obtain ⟨u, a, _, rfl⟩ := dispatch_header_account c env d h hh
  exact finishRequest_command d u a

/-- Witness for C1 (amended): a concrete RawTCP dispatch whose built header
gets the datagram command. -/
theorem dispatch_command_tcp_only_witness :
    (dispatch (clientOf userDisabled) envAllOk destRawStream).header = some headerDisabledRaw ∧
    headerDisabledRaw.command =
      (if destRawStream.network = Network.tcp then RequestCommand.tcp else RequestCommand.udp) :=
  ⟨by decide,
    dispatch_command_tcp_only (clientOf userDisabled) envAllOk destRawStream headerDisabledRaw
      (by decide)⟩

/-- C1 (counterexample to the claim as stated): a destination whose network
kind is the stream-like RawTCP is dispatched with the `datagram` command, not
the `stream` command the claim requires for stream-like kinds. -/
theorem dispatch_rawtcp_gets_datagram_command :
    destRawStream.network = Network.rawtcp ∧
    ((dispatch (clientOf userDisabled) envAllOk destRawStream).header.map
      RequestHeader.command) = some RequestCommand.udp ∧
    (dispatch (clientOf userDisabled) envAllOk destRawStream).result = DResult.ok := by
  decide

/-- C2: for every dispatch whose account resolution succeeds (observable as a
used account and a built header), the one-time-auth option flag is set in the
header's option field if and only if the account's mode is `enabled` or
`auto`. -/
theorem dispatch_ota_flag (c : Client) (env : Env) (d : Destination)
    (h : RequestHeader) (a : ShadowsocksAccount)
    (hh : (dispatch c env d).header = some h)
    (ha : (dispatch c env d).accountUsed = some a) :
    (h.option &&& RequestOptionOneTimeAuth ≠ 0 ↔
      (a.oneTimeAuth = OneTimeAuth.enabled ∨ a.oneTimeAuth = OneTimeAuth.auto)) := by
  obtain ⟨u, a', ha', rfl⟩ := dispatch_header_account c env d h hh
  rw [ha'] at ha
  injection ha with ha
  subst ha
  rw [finishRequest_option]
  cases haut : a'.oneTimeAuth <;> decide

/-- Witness for C2: a concrete enabled-mode stream dispatch. -/
theorem dispatch_ota_flag_witness :
    (dispatch (clientOf userEnabled) envAllOk destStream).header = some headerEnabledStream ∧
    (dispatch (clientOf userEnabled) envAllOk destStream).accountUsed = some accountEnabled ∧
    (headerEnabledStream.option &&& RequestOptionOneTimeAuth ≠ 0 ↔
      (accountEnabled.oneTimeAuth = OneTimeAuth.enabled ∨
        accountEnabled.oneTimeAuth = OneTimeAuth.auto)) :=
  ⟨by decide, by decide,
    dispatch_ota_flag (clientOf userEnabled) envAllOk destStream headerEnabledStream
      accountEnabled (by decide) (by decide)⟩

/-- C9: a dispatch panics (at the unchecked type assertion
`rawAccount.(*ShadowsocksAccount)`) exactly when the dialing loop succeeds and
the picked user's `GetTypedAccount` succeeds with a value that is not a
`*ShadowsocksAccount`; in particular `Dispatch` never panics when every
resolved account is a `*ShadowsocksAccount`. -/
theorem dispatch_panics_iff_foreign_account (c : Client) (env : Env) (d : Destination) :
    (∃ msg, (dispatch c env d).result = DResult.panicked msg) ↔
    (∃ conn server,
      (dialAttempts env.dial c.servers d.network c.pickerIndex 0 5).2 =
        Except.ok (conn, server) ∧
      server.pickUser.account = AccountResult.ok TypedAccount.other) := by
  constructor
  · rintro ⟨msg, hmsg⟩
    rw [dispatch_result_eq] at hmsg
    cases hres : (dialAttempts env.dial c.servers d.network c.pickerIndex 0 5).2 with
    | error e =>
      rw [hres, dispatchAfterDial_dial_error] at hmsg
      simp at hmsg
    | ok p =>
      obtain ⟨conn, server⟩ := p
      rw [hres] at hmsg
      refine ⟨conn, server, rfl, ?_⟩
      cases hacc : server.pickUser.account with
      | err e =>
        rw [dispatchAfterDial_account_error env d conn server e hacc] at hmsg
        simp at hmsg
      | ok ta =>
        cases ta with
        | other => rfl
        | shadowsocks account =>
          by_cases hnet : d.network = Network.tcp
          · cases hreq : env.writeTCPRequest with
            | error e =>
              rw [dispatchAfterDial_tcp_reqfail env d conn server account e hacc hnet hreq] at hmsg
              simp at hmsg
            | ok u =>
              cases u
              cases hpay : env.writeTCPPayload with
              | error e =>
                rw [dispatchAfterDial_tcp_payfail env d conn server account e hacc hnet hreq hpay] at hmsg
                simp at hmsg
              | ok u2 =>
                cases u2
                rw [dispatchAfterDial_tcp_success env d conn server account hacc hnet hreq hpay] at hmsg
                simp at hmsg
          · cases hw : env.writeUDPPayload with
            | error e =>
              rw [dispatchAfterDial_udp_fail env d conn server account e hacc hnet hw] at hmsg
              simp at hmsg
            | ok u =>
              cases u
              rw [dispatchAfterDial_udp_success env d conn server account hacc hnet hw] at hmsg
              simp at hmsg
  · rintro ⟨conn, server, hres, hacc⟩
    rw [dispatch_result_eq, hres, dispatchAfterDial_foreign env d conn server hacc]
    exact ⟨"interface conversion to *ShadowsocksAccount failed", rfl⟩

/-- C10: in stream mode, when `WriteTCPRequest` fails, the deferred
`bodyWriter.Release()` (registered before the error check) is still invoked
on the nil body writer returned alongside the error, and `Dispatch` returns
the wrapped write error. -/
theorem dispatch_bodywriter_release_on_request_error (c : Client) (env : Env)
    (d : Destination) (conn : Nat) (server : ServerSpec) (account : ShadowsocksAccount)
    (e : String)
    (hdial : (dialAttempts env.dial c.servers d.network c.pickerIndex 0 5).2 =
      Except.ok (conn, server))
    (hacc : server.pickUser.account = AccountResult.ok (TypedAccount.shadowsocks account))
    (hnet : d.network = Network.tcp)
    (hreq : env.writeTCPRequest = Except.error e) :
    (dispatch c env d).result =
      DResult.err ("Shadowsock|Client: Failed to write request: " ++ e) ∧
    Event.bodyWriterRelease false ∈ (dispatch c env d).trace := by
  have hbr := dispatchAfterDial_tcp_reqfail env d conn server account e hacc hnet hreq
  constructor
  · rw [dispatch_result_eq, hdial, hbr]
  · rw [dispatch_trace_eq, hdial, hbr]
    refine List.mem_append_right _ ?_
    simp

/-- Witness for C10: a concrete dispatch whose `WriteTCPRequest` fails. -/
theorem dispatch_bodywriter_release_on_request_error_witness :
    (dispatch (clientOf userEnabled) envRequestFails destStream).result =
      DResult.err ("Shadowsock|Client: Failed to write request: " ++ "closed") ∧
    Event.bodyWriterRelease false ∈
      (dispatch (clientOf userEnabled) envRequestFails destStream).trace :=
  dispatch_bodywriter_release_on_request_error (clientOf userEnabled) envRequestFails
    destStream 1 (serverOf userEnabled) accountEnabled "closed"
    (by rfl) (by rfl) (by rfl) (by rfl)

/-- The post-dial trace always ends with the three base deferred releases and
contains them nowhere else. -/
theorem dispatchAfterDial_trace_shape (env : Env) (d : Destination)
    (res : Except String (Nat × ServerSpec)) :
    ∃ mid, (dispatchAfterDial env d res).trace = mid ++ deferBase ∧
      Event.payloadRelease ∉ mid ∧ Event.inputRelease ∉ mid ∧ Event.outputClose ∉ mid := by
  cases res with
  | error e => exact ⟨[], rfl, by simp, by simp, by simp⟩
  | ok p =>
    obtain ⟨conn, server⟩ := p
    cases hacc : server.pickUser.account with
    | err e =>
      rw [dispatchAfterDial_account_error env d conn server e hacc]
      exact ⟨_, rfl, by simp, by simp, by simp⟩
    | ok ta =>
      cases ta with
      | other =>
        rw [dispatchAfterDial_foreign env d conn server hacc]
        exact ⟨_, rfl, by simp, by simp, by simp⟩
      | shadowsocks account =>
        by_cases hnet : d.network = Network.tcp
        · cases hreq : env.writeTCPRequest with
          | error e =>
            rw [dispatchAfterDial_tcp_reqfail env d conn server account e hacc hnet hreq]
            exact ⟨_, rfl, by simp, by simp, by simp⟩
          | ok u =>
            cases u
            cases hpay : env.writeTCPPayload with
            | error e =>
              rw [dispatchAfterDial_tcp_payfail env d conn server account e hacc hnet hreq hpay]
              exact ⟨_, rfl, by simp, by simp, by simp⟩
            | ok u2 =>
              cases u2
              rw [dispatchAfterDial_tcp_success env d conn server account hacc hnet hreq hpay]
              exact ⟨_, rfl, by simp, by simp, by simp⟩
        · cases hw : env.writeUDPPayload with
          | error e =>
            rw [dispatchAfterDial_udp_fail env d conn server account e hacc hnet hw]
            exact ⟨_, rfl, by simp, by simp, by simp⟩
          | ok u =>
            cases u
            rw [dispatchAfterDial_udp_success env d conn server account hacc hnet hw]
            exact ⟨_, rfl, by simp, by simp, by simp⟩

/-- C5: on every exit path of a dispatch, the payload buffer release, the
Input release and the Output close each appear exactly once in the trace. -/
theorem dispatch_releases_once (c : Client) (env : Env) (d : Destination) :
    (dispatch c env d).trace.count Event.payloadRelease = 1 ∧
    (dispatch c env d).trace.count Event.inputRelease = 1 ∧
    (dispatch c env d).trace.count Event.outputClose = 1 := by
  obtain ⟨mid, hmid, h1, h2, h3⟩ := dispatchAfterDial_trace_shape env d
    (dialAttempts env.dial c.servers d.network c.pickerIndex 0 5).2
  have cz : ∀ ev : Event, (∀ k dest, ev ≠ Event.dialAttempt k dest) →
      ev ≠ Event.sleepMs 100 →
      (dialAttempts env.dial c.servers d.network c.pickerIndex 0 5).1.count ev = 0 :=
    fun ev hne1 hne2 => List.count_eq_zero.mpr
      (not_mem_dial_trace env.dial c.servers d.network 5 c.pickerIndex 0 ev hne1 hne2)
  refine ⟨?_, ?_, ?_⟩
  · rw [dispatch_trace_eq, hmid, List.count_append, List.count_append,
      cz Event.payloadRelease (by intro k dest hq; simp at hq) (by simp),
      List.count_eq_zero.mpr h1]
    decide
  · rw [dispatch_trace_eq, hmid, List.count_append, List.count_append,
      cz Event.inputRelease (by intro k dest hq; simp at hq) (by simp),
      List.count_eq_zero.mpr h2]
    decide
  · rw [dispatch_trace_eq, hmid, List.count_append, List.count_append,
      cz Event.outputClose (by intro k dest hq; simp at hq) (by simp),
      List.count_eq_zero.mpr h3]
    decide

/-- C4: when all five dial attempts fail, Dispatch returns the wrapped
"failed to find an available destination" error around the final underlying
dial error, and the trace holds nothing but dial attempts, the retry sleeps
and the deferred cleanup: no SetReusable, no header construction, no write. -/
theorem dispatch_all_dials_fail (c : Client) (env : Env) (d : Destination) (e : String)
    (hfail : (dialAttempts env.dial c.servers d.network c.pickerIndex 0 5).2 =
      Except.error e) :
    (dispatch c env d).result =
      DResult.err ("Shadowsocks|Client: Failed to find an available destination:" ++ e) ∧
    env.dial 4 (attemptDest c.servers d.network (c.pickerIndex + 4)) = Except.error e ∧
    (∀ ev ∈ (dispatch c env d).trace,
      (∃ k dest, ev = Event.dialAttempt k dest) ∨ ev = Event.sleepMs 100 ∨ ev ∈ deferBase) ∧
    (dispatch c env d).header = none ∧
    (dispatch c env d).bg = none := by
  refine ⟨?_, ?_, ?_, ?_, ?_⟩
  · rw [dispatch_result_eq, hfail, dispatchAfterDial_dial_error]
  · obtain ⟨m, hm0, hm5, htr, hfl, hres⟩ :=
      dialAttempts_char env.dial c.servers d.network 5 c.pickerIndex 0 (by omega)
    rcases hres with ⟨conn, hc1, hc2⟩ | ⟨hm, e', he1, he2⟩
    · rw [hfail] at hc2
      exact absurd hc2 (by simp)
    · subst hm
      rw [hfail] at he2
      injection he2 with he2
      subst he2
      simpa using he1
  · intro ev hev
    rw [dispatch_trace_eq, hfail, dispatchAfterDial_dial_error] at hev
    rcases List.mem_append.mp hev with hm | hm
    · rcases dialAttempts_events env.dial c.servers d.network 5 c.pickerIndex 0 ev hm with h | h
      · exact Or.inl h
      · exact Or.inr (Or.inl h)
    · exact Or.inr (Or.inr hm)
  · rw [dispatch_header_eq, hfail, dispatchAfterDial_dial_error]
  · rw [dispatch_bg_eq, hfail, dispatchAfterDial_dial_error]

/-- Witness for C4: an environment whose dial always fails. -/
theorem dispatch_all_dials_fail_witness :
    ((dialAttempts envDialRefused.dial (clientOf userEnabled).servers destStream.network
        (clientOf userEnabled).pickerIndex 0 5).2 = Except.error "refused") ∧
    (dispatch (clientOf userEnabled) envDialRefused destStream).result =
      DResult.err ("Shadowsocks|Client: Failed to find an available destination:" ++ "refused") :=
  ⟨by rfl,
    (dispatch_all_dials_fail (clientOf userEnabled) envDialRefused destStream "refused"
      (by rfl)).1⟩

/-- C3: the dialing phase of every dispatch makes at most 5 attempts,
interspersed with 100 ms sleeps; attempt `k` re-picks the round-robin server
at rotation index `pickerIndex + k` and dials its destination with the network
overridden by the inbound destination's network; attempts before the last all
failed, and the loop either ends at the first success with that connection and
the ServerSpec that produced it, or exhausts all 5 attempts with the final
error. -/
theorem dispatch_dialing_phase (c : Client) (env : Env) (d : Destination) :
    ∃ m rest, 0 < m ∧ m ≤ 5 ∧
      (dispatch c env d).trace =
        List.intersperse (Event.sleepMs 100)
          ((List.range m).map fun k =>
            Event.dialAttempt k (attemptDest c.servers d.network (c.pickerIndex + k))) ++ rest ∧
      (∀ k, k + 1 < m →
        ∃ e, env.dial k (attemptDest c.servers d.network (c.pickerIndex + k)) =
          Except.error e) ∧
      ((∃ conn, env.dial (m - 1) (attemptDest c.servers d.network (c.pickerIndex + (m - 1))) =
          Except.ok conn ∧
          (dialAttempts env.dial c.servers d.network c.pickerIndex 0 5).2 =
            Except.ok (conn, pickAt c.servers (c.pickerIndex + (m - 1)))) ∨
       (m = 5 ∧ ∃ e,
          env.dial (m - 1) (attemptDest c.servers d.network (c.pickerIndex + (m - 1))) =
            Except.error e ∧
          (dialAttempts env.dial c.servers d.network c.pickerIndex 0 5).2 =
            Except.error e)) := by
  obtain ⟨m, hm0, hm5, htr, hfl, hres⟩ :=
    dialAttempts_char env.dial c.servers d.network 5 c.pickerIndex 0 (by omega)
  refine ⟨m, (dispatchAfterDial env d
    (dialAttempts env.dial c.servers d.network c.pickerIndex 0 5).2).trace, hm0, hm5, ?_, ?_, ?_⟩
  · rw [dispatch_trace_eq, htr]
    simp only [Nat.zero_add]
  · intro k hk
    obtain ⟨e, he⟩ := hfl k hk
    exact ⟨e, by simpa using he⟩
  · rcases hres with ⟨conn, hc1, hc2⟩ | ⟨hm, e, he1, he2⟩
    · exact Or.inl ⟨conn, by simpa using hc1, hc2⟩
    · exact Or.inr ⟨hm, e, by simpa using he1, he2⟩

/-- C8 (counterexample to the claim as stated): on an account-resolution
failure the request header struct has already been constructed — the trace of
a failing dispatch contains the header-construction event before the account
fetch, so the error is not surfaced "before request-header construction". -/
theorem dispatch_account_failure_after_header_built :
    (dispatch (clientOf userBadAccount) envAllOk destStream).result =
      DResult.err "Shadowsocks|Client: Failed to get a valid user account: bad account" ∧
    (dispatch (clientOf userBadAccount) envAllOk destStream).trace =
      [Event.dialAttempt 0 relayDest,
       Event.setReusable false,
       Event.buildHeaderBase (buildRequestBase destStream),
       Event.getTypedAccount,
       Event.outputClose, Event.inputRelease, Event.payloadRelease] := by
  decide

/-- C8 (amended): when the selected account's credential cannot be resolved,
Dispatch surfaces the wrapped account error after the base request header
struct has been constructed, but before the header is completed with the user
and option fields and before any byte is written to the connection. -/
theorem dispatch_account_failure_before_write (c : Client) (env : Env) (d : Destination)
    (conn : Nat) (server : ServerSpec) (e : String)
    (hdial : (dialAttempts env.dial c.servers d.network c.pickerIndex 0 5).2 =
      Except.ok (conn, server))
    (hacc : server.pickUser.account = AccountResult.err e) :
    (dispatch c env d).result =
      DResult.err ("Shadowsocks|Client: Failed to get a valid user account: " ++ e) ∧
    Event.buildHeaderBase (buildRequestBase d) ∈ (dispatch c env d).trace ∧
    Event.setHeaderUser ∉ (dispatch c env d).trace ∧
    (dispatch c env d).header = none ∧
    (∀ hdr : RequestHeader, Event.writeTCPRequestHeader hdr ∉ (dispatch c env d).trace) ∧
    Event.writeTCPPayload ∉ (dispatch c env d).trace ∧
    (∀ hdr : RequestHeader, Event.writeUDPPayload hdr ∉ (dispatch c env d).trace) ∧
    Event.pipeInputToBody ∉ (dispatch c env d).trace ∧
    Event.pipeInputToUDPWriter ∉ (dispatch c env d).trace := by
  have hcomp := dispatchAfterDial_account_error env d conn server e hacc
  have htr : (dispatch c env d).trace =
      (dialAttempts env.dial c.servers d.network c.pickerIndex 0 5).1 ++
        ([Event.setReusable false, Event.buildHeaderBase (buildRequestBase d),
          Event.getTypedAccount] ++ deferBase) := by
    rw [dispatch_trace_eq, hdial, hcomp]
  refine ⟨?_, ?_, ?_, ?_, ?_, ?_, ?_, ?_, ?_⟩
  · rw [dispatch_result_eq, hdial, hcomp]
  · rw [htr]
    exact List.mem_append_right _ (by simp)
  · rw [htr]
    intro hmem
    rcases List.mem_append.mp hmem with hm | hm
    · exact not_mem_dial_trace _ _ _ _ _ _ _ (by intro k dest hq; simp at hq) (by simp) hm
    · simp [deferBase] at hm
  · rw [dispatch_header_eq, hdial, hcomp]
  · intro hdr
    rw [htr]
    intro hmem
    rcases List.mem_append.mp hmem with hm | hm
    · exact not_mem_dial_trace _ _ _ _ _ _ _ (by intro k dest hq; simp at hq) (by simp) hm
    · simp [deferBase] at hm
  · rw [htr]
    intro hmem
    rcases List.mem_append.mp hmem with hm | hm
    · exact not_mem_dial_trace _ _ _ _ _ _ _ (by intro k dest hq; simp at hq) (by simp) hm
    · simp [deferBase] at hm
  · intro hdr
    rw [htr]
    intro hmem
    rcases List.mem_append.mp hmem with hm | hm
    · exact not_mem_dial_trace _ _ _ _ _ _ _ (by intro k dest hq; simp at hq) (by simp) hm
    · simp [deferBase] at hm
  · rw [htr]
    intro hmem
    rcases List.mem_append.mp hmem with hm | hm
    · exact not_mem_dial_trace _ _ _ _ _ _ _ (by intro k dest hq; simp at hq) (by simp) hm
    · simp [deferBase] at hm
  · rw [htr]
    intro hmem
    rcases List.mem_append.mp hmem with hm | hm
    · exact not_mem_dial_trace _ _ _ _ _ _ _ (by intro k dest hq; simp at hq) (by simp) hm
    · simp [deferBase] at hm

/-- Witness for C8 (amended): a concrete dispatch whose account resolution
fails. -/
theorem dispatch_account_failure_before_write_witness :
    (dispatch (clientOf userBadAccount) envAllOk destStream).result =
      DResult.err ("Shadowsocks|Client: Failed to get a valid user account: " ++ "bad account") ∧
    Event.setHeaderUser ∉ (dispatch (clientOf userBadAccount) envAllOk destStream).trace :=
  ⟨(dispatch_account_failure_before_write (clientOf userBadAccount) envAllOk destStream 1
      (serverOf userBadAccount) "bad account" (by rfl) (by rfl)).1,
    (dispatch_account_failure_before_write (clientOf userBadAccount) envAllOk destStream 1
      (serverOf userBadAccount) "bad account" (by rfl) (by rfl)).2.2.1⟩

/-- C7 (counterexample to the claim as stated): in datagram mode, when the
initial payload write fails after the response reader has been spawned,
Dispatch returns — and the deferred cleanup runs — without ever re-acquiring
the completion signal, so cleanup can race the live background reader. -/
theorem dispatch_udp_write_failure_skips_join :
    ((dispatch (clientOf userEnabled) envUDPWriteFails destDatagram).bg).isSome = true ∧
    Event.spawnResponseTask ∈
      (dispatch (clientOf userEnabled) envUDPWriteFails destDatagram).trace ∧
    Event.signalAwait ∉
      (dispatch (clientOf userEnabled) envUDPWriteFails destDatagram).trace ∧
    Event.outputClose ∈
      (dispatch (clientOf userEnabled) envUDPWriteFails destDatagram).trace := by
  decide

/-- C7 (amended): in stream mode, and in datagram mode when the initial
payload write succeeds, the deferred cleanup runs only after the foreground
re-acquires the one-shot completion signal, which it acquired before spawning
the response task and which the background task releases exactly once, as its
last action; the datagram path whose initial payload write fails after the
spawn is the exception and returns without waiting. -/
theorem dispatch_cleanup_after_join (c : Client) (env : Env) (d : Destination)
    (l : List BgEvent)
    (hbg : (dispatch c env d).bg = some l)
    (hok : d.network = Network.tcp ∨ env.writeUDPPayload = Except.ok ()) :
    (∃ p1 p2 post,
      (dispatch c env d).trace =
        p1 ++ Event.signalAcquire :: Event.spawnResponseTask ::
          (p2 ++ Event.signalAwait :: post) ∧
      Event.payloadRelease ∉ p1 ++ p2 ∧ Event.inputRelease ∉ p1 ++ p2 ∧
      Event.outputClose ∉ p1 ++ p2 ∧ Event.bufferedWriterRelease ∉ p1 ++ p2 ∧
      Event.payloadRelease ∈ post ∧ Event.inputRelease ∈ post ∧
      Event.outputClose ∈ post) ∧
    l.count BgEvent.signalDone = 1 ∧ l.getLast? = some BgEvent.signalDone := by
  rw [dispatch_bg_eq] at hbg
  cases hres : (dialAttempts env.dial c.servers d.network c.pickerIndex 0 5).2 with
  | error e =>
    rw [hres, dispatchAfterDial_dial_error] at hbg
    simp at hbg
  | ok p =>
    obtain ⟨conn, server⟩ := p
    rw [hres] at hbg
    cases hacc : server.pickUser.account with
    | err e =>
      rw [dispatchAfterDial_account_error env d conn server e hacc] at hbg
      simp at hbg
    | ok ta =>
      cases ta with
      | other =>
        rw [dispatchAfterDial_foreign env d conn server hacc] at hbg
        simp at hbg
      | shadowsocks account =>
        by_cases hnet : d.network = Network.tcp
        · cases hreq : env.writeTCPRequest with
          | error e =>
            rw [dispatchAfterDial_tcp_reqfail env d conn server account e hacc hnet hreq] at hbg
            simp at hbg
          | ok u =>
            cases u
            cases hpay : env.writeTCPPayload with
            | error e =>
              rw [dispatchAfterDial_tcp_payfail env d conn server account e hacc hnet hreq hpay] at hbg
              simp at hbg
            | ok u2 =>
              cases u2
              have hcomp := dispatchAfterDial_tcp_success env d conn server account hacc hnet hreq hpay
              rw [hcomp] at hbg
              replace hbg : some (bgTCP env) = some l := hbg
              injection hbg with hbg
              subst hbg
              constructor
              · refine ⟨(dialAttempts env.dial c.servers d.network c.pickerIndex 0 5).1 ++
                  [Event.setReusable false, Event.buildHeaderBase (buildRequestBase d),
                   Event.getTypedAccount, Event.setHeaderUser,
                   Event.writeTCPRequestHeader (finishRequest d server.pickUser account),
                   Event.writeTCPPayload],
                  [Event.setCached false, Event.pipeInputToBody],
                  [Event.bodyWriterRelease true, Event.bufferedWriterRelease] ++ deferBase,
                  ?_, ?_, ?_, ?_, ?_, ?_, ?_, ?_⟩
                · rw [dispatch_trace_eq, hres, hcomp]
                  simp [List.append_assoc]
                · intro hmem
                  rcases List.mem_append.mp hmem with hm | hm
                  · rcases List.mem_append.mp hm with hm2 | hm2
                    · exact not_mem_dial_trace _ _ _ _ _ _ _
                        (by intro k dest hq; simp at hq) (by simp) hm2
                    · simp at hm2
                  · simp at hm
                · intro hmem
                  rcases List.mem_append.mp hmem with hm | hm
                  · rcases List.mem_append.mp hm with hm2 | hm2
                    · exact not_mem_dial_trace _ _ _ _ _ _ _
                        (by intro k dest hq; simp at hq) (by simp) hm2
                    · simp at hm2
                  · simp at hm
                · intro hmem
                  rcases List.mem_append.mp hmem with hm | hm
                  · rcases List.mem_append.mp hm with hm2 | hm2
                    · exact not_mem_dial_trace _ _ _ _ _ _ _
                        (by intro k dest hq; simp at hq) (by simp) hm2
                    · simp at hm2
                  · simp at hm
                · intro hmem
                  rcases List.mem_append.mp hmem with hm | hm
                  · rcases List.mem_append.mp hm with hm2 | hm2
                    · exact not_mem_dial_trace _ _ _ _ _ _ _
                        (by intro k dest hq; simp at hq) (by simp) hm2
                    · simp at hm2
                  · simp at hm
                · simp [deferBase]
                · simp [deferBase]
                · simp [deferBase]
              · cases hr : env.readTCPResponse with
                | error e2 =>
                  simp only [bgTCP, hr]
                  exact ⟨rfl, rfl⟩
                | ok u3 =>
                  simp only [bgTCP, hr]
                  exact ⟨rfl, rfl⟩
        · rcases hok with hnet' | hw
          · exact absurd hnet' hnet
          · have hcomp := dispatchAfterDial_udp_success env d conn server account hacc hnet hw
            rw [hcomp] at hbg
            replace hbg : some bgUDP = some l := hbg
            injection hbg with hbg
            subst hbg
            constructor
            · refine ⟨(dialAttempts env.dial c.servers d.network c.pickerIndex 0 5).1 ++
                [Event.setReusable false, Event.buildHeaderBase (buildRequestBase d),
                 Event.getTypedAccount, Event.setHeaderUser],
                [Event.writeUDPPayload (finishRequest d server.pickUser account),
                 Event.pipeInputToUDPWriter],
                deferBase, ?_, ?_, ?_, ?_, ?_, ?_, ?_, ?_⟩
              · rw [dispatch_trace_eq, hres, hcomp]
                simp [List.append_assoc]
              · intro hmem
                rcases List.mem_append.mp hmem with hm | hm
                · rcases List.mem_append.mp hm with hm2 | hm2
                  · exact not_mem_dial_trace _ _ _ _ _ _ _
                      (by intro k dest hq; simp at hq) (by simp) hm2
                  · simp at hm2
                · simp at hm
              · intro hmem
                rcases List.mem_append.mp hmem with hm | hm
                · rcases List.mem_append.mp hm with hm2 | hm2
                  · exact not_mem_dial_trace _ _ _ _ _ _ _
                      (by intro k dest hq; simp at hq) (by simp) hm2
                  · simp at hm2
                · simp at hm
              · intro hmem
                rcases List.mem_append.mp hmem with hm | hm
                · rcases List.mem_append.mp hm with hm2 | hm2
                  · exact not_mem_dial_trace _ _ _ _ _ _ _
                      (by intro k dest hq; simp at hq) (by simp) hm2
                  · simp at hm2
                · simp at hm
              · intro hmem
                rcases List.mem_append.mp hmem with hm | hm
                · rcases List.mem_append.mp hm with hm2 | hm2
                  · exact not_mem_dial_trace _ _ _ _ _ _ _
                      (by intro k dest hq; simp at hq) (by simp) hm2
                  · simp at hm2
                · simp at hm
              · simp [deferBase]
              · simp [deferBase]
              · simp [deferBase]
            · exact ⟨rfl, rfl⟩

/-- Witness for C7 (amended): a concrete all-success stream dispatch. -/
theorem dispatch_cleanup_after_join_witness :
    (dispatch (clientOf userEnabled) envAllOk destStream).bg =
      some [BgEvent.readTCPResponseOk, BgEvent.pipeToOutput, BgEvent.signalDone] ∧
    ((∃ p1 p2 post,
      (dispatch (clientOf userEnabled) envAllOk destStream).trace =
        p1 ++ Event.signalAcquire :: Event.spawnResponseTask ::
          (p2 ++ Event.signalAwait :: post) ∧
      Event.payloadRelease ∉ p1 ++ p2 ∧ Event.inputRelease ∉ p1 ++ p2 ∧
      Event.outputClose ∉ p1 ++ p2 ∧ Event.bufferedWriterRelease ∉ p1 ++ p2 ∧
      Event.payloadRelease ∈ post ∧ Event.inputRelease ∈ post ∧
      Event.outputClose ∈ post) ∧
    ([BgEvent.readTCPResponseOk, BgEvent.pipeToOutput,
        BgEvent.signalDone].count BgEvent.signalDone = 1 ∧
      [BgEvent.readTCPResponseOk, BgEvent.pipeToOutput,
        BgEvent.signalDone].getLast? = some BgEvent.signalDone)) :=
  ⟨by decide,
    dispatch_cleanup_after_join (clientOf userEnabled) envAllOk destStream
      [BgEvent.readTCPResponseOk, BgEvent.pipeToOutput, BgEvent.signalDone]
      (by decide) (Or.inl (by decide))⟩

/-- C6: the asynchronous response-read outcome never affects Dispatch's
return value: once dial, account resolution and the synchronous header and
payload writes succeed, the result is `nil` for every response-read outcome;
a failing response read only changes the background task, which logs the
failure and delivers nothing to the Output, while the foreground trace is
unchanged. -/
theorem dispatch_response_failure_absorbed (c : Client) (env : Env) (d : Destination)
    (conn : Nat) (server : ServerSpec) (account : ShadowsocksAccount)
    (resp : Except String Unit) (msg : String)
    (hdial : (dialAttempts env.dial c.servers d.network c.pickerIndex 0 5).2 =
      Except.ok (conn, server))
    (hacc : server.pickUser.account = AccountResult.ok (TypedAccount.shadowsocks account))
    (hnet : d.network = Network.tcp)
    (hreq : env.writeTCPRequest = Except.ok ())
    (hpay : env.writeTCPPayload = Except.ok ()) :
    (dispatch c { env with readTCPResponse := resp } d).result = DResult.ok ∧
    (dispatch c { env with readTCPResponse := Except.error msg } d).bg =
      some [BgEvent.readTCPResponseFailed, BgEvent.logWarning, BgEvent.signalDone] ∧
    (dispatch c { env with readTCPResponse := Except.error msg } d).trace =
      (dispatch c { env with readTCPResponse := resp } d).trace := by
  have hdial1 : ∀ r : Except String Unit,
      (dialAttempts ({ env with readTCPResponse := r } : Env).dial c.servers d.network
        c.pickerIndex 0 5).2 = Except.ok (conn, server) := fun _ => hdial
  have hkey := fun r : Except String Unit =>
    dispatchAfterDial_tcp_success { env with readTCPResponse := r } d conn server account
      hacc hnet hreq hpay
  have htrace : ∀ r : Except String Unit,
      (dispatch c { env with readTCPResponse := r } d).trace =
        (dialAttempts env.dial c.servers d.network c.pickerIndex 0 5).1 ++
          ([Event.setReusable false, Event.buildHeaderBase (buildRequestBase d),
            Event.getTypedAccount, Event.setHeaderUser,
            Event.writeTCPRequestHeader (finishRequest d server.pickUser account),
            Event.writeTCPPayload, Event.signalAcquire, Event.spawnResponseTask,
            Event.setCached false, Event.pipeInputToBody, Event.signalAwait,
            Event.bodyWriterRelease true, Event.bufferedWriterRelease] ++ deferBase) := by
    intro r
    rw [dispatch_trace_eq, hdial1 r, hkey r]
  refine ⟨?_, ?_, ?_⟩
  · rw [dispatch_result_eq, hdial1 resp, hkey resp]
  · rw [dispatch_bg_eq, hdial1 (Except.error msg), hkey (Except.error msg)]
    rfl
  · rw [htrace (Except.error msg), htrace resp]

/-- Witness for C6: a concrete stream dispatch whose response read fails. -/
theorem dispatch_response_failure_absorbed_witness :
    (dispatch (clientOf userEnabled)
      { envAllOk with readTCPResponse := Except.error "invalid response" } destStream).result =
      DResult.ok ∧
    (dispatch (clientOf userEnabled)
      { envAllOk with readTCPResponse := Except.error "invalid response" } destStream).bg =
      some [BgEvent.readTCPResponseFailed, BgEvent.logWarning, BgEvent.signalDone] :=
  ⟨(dispatch_response_failure_absorbed (clientOf userEnabled) envAllOk destStream 1
      (serverOf userEnabled) accountEnabled (Except.error "invalid response")
      "invalid response" (by rfl) (by rfl) (by rfl) (by rfl) (by rfl)).1,
    (dispatch_response_failure_absorbed (clientOf userEnabled) envAllOk destStream 1
      (serverOf userEnabled) accountEnabled (Except.error "invalid response")
      "invalid response" (by rfl) (by rfl) (by rfl) (by rfl) (by rfl)).2.1⟩

end Shadowsocks
